import Mathlib

/-!
# Verification of the neoncore boundary-mesh pipeline

Shallow embedding of the globe boundary renderer in
`src/components/Toggle.tsx` (the `GlobeView` part of the file):

* `latLngToVector3` — the spherical Projector (source lines 326–333);
* `CONTINENT_COLORS` / `DEFAULT_COLOR` / `colorOf` — the Continent
  Palette (source lines 313–323 and the lookup at line 352);
* `edges`, `bounds`, `crossesCode`, `interpolate`, `crossings`,
  `scanlineLats`, `pairUp`, `gridSegments`, `addLines` — the Scanline
  Tessellator (`addLines`, source lines 354–392);
* `processFeature` / `buildFeatures` — the Boundary Mesh Builder
  (the `forEach` over `data.features`, source lines 345–407), with
  JavaScript `TypeError`s on missing `geometry` / `coordinates`
  modelled as `Except.error ()` (the exception aborts the `forEach`
  and is swallowed by the promise-level `.catch`).

Geographic coordinates and color components are modelled as exact
rationals; the tiny grid step and radii of the source are rational
literals, so exact arithmetic matches the JavaScript numbers on the
inputs used here.  3-D points are real-valued since the projection
uses `sin`/`cos`.

The source hardwires `gridStep = 2.0` inside `addLines`
(`gridStepConst` below); the spec treats the step as a parameter of
the tessellator, so the grid-pass definitions take the step as an
argument and `addLines` instantiates it at `gridStepConst`.
-/

namespace Neoncore

/-- A 3-D point, as produced by `new THREE.Vector3(x, y, z)`. -/
structure Vector3 where
  x : ℝ
  y : ℝ
  z : ℝ

/-- Source lines 326–333: `latLngToVector3(lat, lng, radius)` with
`phi = (90 - lat) * (Math.PI / 180)`, `theta = (lng + 180) * (Math.PI / 180)`,
`x = -radius*sin(phi)*cos(theta)`, `y = radius*cos(phi)`,
`z = radius*sin(phi)*sin(theta)`. -/
noncomputable def latLngToVector3 (lat lng radius : ℝ) : Vector3 :=
  let phi : ℝ := (90 - lat) * (Real.pi / 180)
  let theta : ℝ := (lng + 180) * (Real.pi / 180)
  { x := -radius * Real.sin phi * Real.cos theta
    y := radius * Real.cos phi
    z := radius * Real.sin phi * Real.sin theta }

/-- An RGB color; components are the `r`,`g`,`b` fields of a
`THREE.Color` (hex component divided by 255). -/
structure Color where
  r : ℚ
  g : ℚ
  b : ℚ
deriving DecidableEq

/-- Source lines 313–321: the fixed seven-continent neon palette. -/
def CONTINENT_COLORS : List (String × Color) :=
  [("Africa", ⟨1, 136/255, 0⟩),
   ("Asia", ⟨0, 242/255, 1⟩),
   ("Europe", ⟨0, 1, 0⟩),
   ("North America", ⟨1, 0, 1⟩),
   ("South America", ⟨1, 1, 0⟩),
   ("Oceania", ⟨1, 0, 136/255⟩),
   ("Antarctica", ⟨1, 1, 1⟩)]

/-- Source line 323: `DEFAULT_COLOR = new THREE.Color('#444444')`. -/
def DEFAULT_COLOR : Color := ⟨68/255, 68/255, 68/255⟩

/-- The `CONTINENT_COLORS` object at line 313 is a plain object
literal, so bracket lookup `CONTINENT_COLORS[name]` also reaches the
members every object inherits from `Object.prototype`.  These are the
standard `Object.prototype` property names reachable that way. -/
def OBJECT_PROTOTYPE_KEYS : List String :=
  ["constructor", "hasOwnProperty", "isPrototypeOf", "propertyIsEnumerable",
   "toLocaleString", "toString", "valueOf", "__proto__",
   "__defineGetter__", "__defineSetter__", "__lookupGetter__", "__lookupSetter__"]

/-- A possible value of `CONTINENT_COLORS[continent] || DEFAULT_COLOR`
(source line 352): either an actual `THREE.Color` (an own entry of the
table, or the fallback), or a truthy non-color value inherited from
`Object.prototype` (a function such as `toString`, or the prototype
object itself for `__proto__`), which the `||` keeps unchanged. -/
inductive PaletteValue
  | color (c : Color)
  | inherited
deriving DecidableEq

/-- The bracket lookup `CONTINENT_COLORS[name]`: an own entry of the
seven-name table, else an inherited `Object.prototype` member, else
`undefined` (`none`). -/
def bracketLookup (name : String) : Option PaletteValue :=
  match CONTINENT_COLORS.lookup name with
  | some c => some (.color c)
  | none =>
    if name ∈ OBJECT_PROTOTYPE_KEYS then some .inherited else none

/-- Source line 352: `CONTINENT_COLORS[continent] || DEFAULT_COLOR`.
An `undefined` lookup result is falsy, so the fallback fires; an
inherited `Object.prototype` member is truthy and is used as the
"color" unchanged.  `none` models a JavaScript `undefined` key, which
bracket lookup coerces to the string `"undefined"` — missing both the
table and `Object.prototype`, hence the fallback. -/
def colorOf (name : Option String) : PaletteValue :=
  match name with
  | none => .color DEFAULT_COLOR
  | some s => (bracketLookup s).getD (.color DEFAULT_COLOR)

/-- A JavaScript numeric value as pushed into the `colors` array:
`some q` is a finite number; `none` models `undefined`/`NaN` — the
result of reading `.r`, `.g` or `.b` off an inherited non-color value
(lines 360 and 388), or of multiplying such a read by `0.3`. -/
abbrev JSNum : Type := Option ℚ

/-- Reading `continentColor.r` (source lines 360 and 388). -/
def PaletteValue.rComp : PaletteValue → JSNum
  | .color c => some c.r
  | .inherited => none

/-- Reading `continentColor.g` (source lines 360 and 388). -/
def PaletteValue.gComp : PaletteValue → JSNum
  | .color c => some c.g
  | .inherited => none

/-- Reading `continentColor.b` (source lines 360 and 388). -/
def PaletteValue.bComp : PaletteValue → JSNum
  | .color c => some c.b
  | .inherited => none

/-- JavaScript multiplication of a component read by a rational
constant (the `* 0.3` grid attenuation at line 388): `undefined * q`
is `NaN`, so the non-number case is absorbing. -/
def jsMul (x : JSNum) (q : ℚ) : JSNum := x.map (fun v => v * q)

/-- A ring vertex is a `[lng, lat]` pair, in that order, as in the
GeoJSON data consumed by `addLines`. -/
abbrev LngLat : Type := ℚ × ℚ

/-- The edge list traversed by both loops of `addLines`
(`for (let i = 0; i < polygon.length - 1; i++)`, source lines 356 and
373): consecutive vertex pairs `(polygon[i], polygon[i+1])`, with no
wrap-around edge from the last vertex back to the first. -/
def edges (polygon : List LngLat) : List (LngLat × LngLat) :=
  polygon.zip polygon.tail

/-- The bounding box computed by `addLines` (source lines 364–368),
with the source's initial values `minX = 180, maxX = -180, minY = 90,
maxY = -90` and sequential `if`-updates. -/
structure Bounds where
  minX : ℚ
  maxX : ℚ
  minY : ℚ
  maxY : ℚ
deriving DecidableEq

/-- Source lines 364–368: linear scan updating the bounding box. -/
def bounds (polygon : List LngLat) : Bounds :=
  polygon.foldl
    (fun b p =>
      { minX := if p.1 < b.minX then p.1 else b.minX
        maxX := if p.1 > b.maxX then p.1 else b.maxX
        minY := if p.2 < b.minY then p.2 else b.minY
        maxY := if p.2 > b.maxY then p.2 else b.maxY })
    ⟨180, -180, 90, -90⟩

/-- Source line 376: the edge-crossing test of the grid pass,
`(lat1 <= lat && lat2 > lat) || (lat2 <= lat && lat1 > lat)`. -/
def crossesCode (lat lat1 lat2 : ℚ) : Prop :=
  (lat1 ≤ lat ∧ lat2 > lat) ∨ (lat2 ≤ lat ∧ lat1 > lat)

instance (lat lat1 lat2 : ℚ) : Decidable (crossesCode lat lat1 lat2) := by
  unfold crossesCode; infer_instance

/-- Source line 377: longitude of the crossing by linear interpolation,
`lng1 + (lat - lat1) * (lng2 - lng1) / (lat2 - lat1)`. -/
def interpolate (lat : ℚ) (e : LngLat × LngLat) : ℚ :=
  e.1.1 + (lat - e.1.2) * (e.2.1 - e.1.1) / (e.2.2 - e.1.2)

/-- Source lines 372–380: the `intersections` array collected for one
scanline latitude — every traversed edge passing `crossesCode`
contributes its interpolated crossing longitude, in edge order. -/
def crossings (polygon : List LngLat) (lat : ℚ) : List ℚ :=
  (edges polygon).filterMap
    (fun e => if crossesCode lat e.1.2 e.2.2 then some (interpolate lat e) else none)

/-- Source line 371: the latitudes visited by
`for (let lat = Math.ceil(minY / gridStep) * gridStep; lat <= maxY; lat += gridStep)`.
For a nonpositive step the source loop would not terminate; the claims
only concern positive steps, and this definition returns `[]` there. -/
def scanlineLats (minLat maxLat step : ℚ) : List ℚ :=
  if 0 < step then
    if (⌈minLat / step⌉ : ℤ) * step ≤ maxLat then
      (List.range
          ((⌊(maxLat - (⌈minLat / step⌉ : ℤ) * step) / step⌋).toNat + 1)).map
        (fun k : ℕ => (⌈minLat / step⌉ : ℤ) * step + (k : ℚ) * step)
    else []
  else []

/-- Insertion of a value into an ascending list; building block of
`sortAsc`. -/
def insertAsc (x : ℚ) : List ℚ → List ℚ
  | [] => [x]
  | y :: ys => if x ≤ y then x :: y :: ys else y :: insertAsc x ys

/-- Source line 381: `intersections.sort((a, b) => a - b)` — ascending
numeric sort, modelled as insertion sort (order among equal rationals
is immaterial since the values coincide). -/
def sortAsc (l : List ℚ) : List ℚ := l.foldr insertAsc []

/-- Source lines 382–390: consecutive pairing of the sorted crossing
longitudes (`i += 2`, with the `intersections[i+1] !== undefined` guard
dropping an unpaired trailing crossing). -/
def pairUp : List ℚ → List (ℚ × ℚ)
  | a :: b :: rest => (a, b) :: pairUp rest
  | _ => []

/-- Source line 370: the grid step hardwired inside `addLines`
(`const gridStep = 2.0`). -/
def gridStepConst : ℚ := 2

/-- The grid pass of `addLines` (source lines 370–391), one record
`(lat, lngA, lngB)` per emitted interior chord: for each scanline
latitude, sort the crossings ascending (line 381) and pair them
consecutively. -/
def gridSegments (polygon : List LngLat) (step : ℚ) : List (ℚ × ℚ × ℚ) :=
  (scanlineLats (bounds polygon).minY (bounds polygon).maxY step).flatMap
    (fun lat =>
      (pairUp (sortAsc (crossings polygon lat))).map
        (fun ab => (lat, ab.1, ab.2)))

/-- The parallel `points` / `colors` arrays accumulated by
`CountryOutlines` (source lines 342–343): `points` holds 3-D segment
endpoints consumed pairwise, `colors` holds one flat RGB component
triple per point. -/
structure SegmentBuffer where
  points : List Vector3
  colors : List JSNum

/-- The empty buffer (`points = []`, `colors = []`). -/
def SegmentBuffer.empty : SegmentBuffer := ⟨[], []⟩

/-- Sequential accumulation into the shared arrays: the contribution
of one stage followed by the contribution of the next. -/
def SegmentBuffer.append (a b : SegmentBuffer) : SegmentBuffer :=
  ⟨a.points ++ b.points, a.colors ++ b.colors⟩

/-- Source line 310: `GLOBE_RADIUS = 2`. -/
def GLOBE_RADIUS : ℝ := 2

/-- Projection of a `[lng, lat]` ring vertex at a given radius; the
source passes `polygon[i][1]` (latitude) first and `polygon[i][0]`
(longitude) second (lines 357–358). -/
noncomputable def projectVertex (p : LngLat) (radius : ℝ) : Vector3 :=
  latLngToVector3 (p.2 : ℝ) (p.1 : ℝ) radius

/-- The outline pass of `addLines` (source lines 356–361) as projected
endpoint pairs: each traversed edge becomes one segment at radius
`GLOBE_RADIUS + 0.02`. -/
noncomputable def outlineSegments3 (polygon : List LngLat) : List (Vector3 × Vector3) :=
  (edges polygon).map
    (fun e => (projectVertex e.1 (GLOBE_RADIUS + 2/100),
               projectVertex e.2 (GLOBE_RADIUS + 2/100)))

/-- One grid-pass record projected at radius `GLOBE_RADIUS + 0.01`
(source lines 384–385): both endpoints are projected at the record's
scanline latitude. -/
noncomputable def projectGridSegment (s : ℚ × ℚ × ℚ) : Vector3 × Vector3 :=
  (latLngToVector3 (s.1 : ℝ) (s.2.1 : ℝ) (GLOBE_RADIUS + 1/100),
   latLngToVector3 (s.1 : ℝ) (s.2.2 : ℝ) (GLOBE_RADIUS + 1/100))

/-- Source lines 354–392: the `addLines` closure for one ring — the
outline pass (two points and two RGB triples per edge, full
intensity), then the grid pass (two points and two RGB triples per
chord, at 30% intensity), with the source's hardwired
`gridStep = 2.0`. -/
noncomputable def addLines (cv : PaletteValue) (polygon : List LngLat) : SegmentBuffer :=
  { points :=
      (outlineSegments3 polygon).flatMap (fun pq => [pq.1, pq.2]) ++
      ((gridSegments polygon gridStepConst).map projectGridSegment).flatMap
        (fun pq => [pq.1, pq.2])
    colors :=
      (edges polygon).flatMap
        (fun _ => [cv.rComp, cv.gComp, cv.bComp, cv.rComp, cv.gComp, cv.bComp]) ++
      (gridSegments polygon gridStepConst).flatMap
        (fun _ => [jsMul cv.rComp (3/10), jsMul cv.gComp (3/10), jsMul cv.bComp (3/10),
                   jsMul cv.rComp (3/10), jsMul cv.gComp (3/10), jsMul cv.bComp (3/10)]) }

/-- The `geometry` field of a fetched feature.  `polygon` /
`multiPolygon` carry well-formed coordinate nestings;
`polygonNoCoords` / `multiPolygonNoCoords` model a typed geometry
whose `coordinates` field is missing (JavaScript `undefined`), and
`otherType` a geometry whose `type` matches neither branch of the
dispatch at source lines 394–400. -/
inductive Geometry
  | polygon (rings : List (List LngLat))
  | multiPolygon (polys : List (List (List LngLat)))
  | polygonNoCoords
  | multiPolygonNoCoords
  | otherType
deriving DecidableEq

/-- The `properties` object of a feature; only `CONTINENT` and
`continent` are consumed (source line 351).  `none` models a missing
field. -/
structure FeatureProps where
  CONTINENT : Option String
  continent : Option String
deriving DecidableEq

/-- One record of `data.features`; `geometry = none` models a feature
whose `geometry` field is missing. -/
structure Feature where
  geometry : Option Geometry
  properties : FeatureProps
deriving DecidableEq

/-- JavaScript `a || b` for an optional string `a`: the empty string
and a missing value are falsy. -/
def orFalsy (a : Option String) (b : String) : String :=
  match a with
  | some s => if s = "" then b else s
  | none => b

/-- Source line 351:
`properties.CONTINENT || properties.continent || 'Unknown'`. -/
def resolveContinent (p : FeatureProps) : String :=
  orFalsy p.CONTINENT (orFalsy p.continent "Unknown")

/-- Left-to-right concatenation of per-ring buffers into the shared
arrays. -/
noncomputable def appendAll (bs : List SegmentBuffer) : SegmentBuffer :=
  bs.foldr SegmentBuffer.append SegmentBuffer.empty

/-- The body of the `data.features.forEach` callback (source lines
345–400) for one feature.  `Except.error ()` models an uncaught
JavaScript `TypeError`: reading `geo.type` when `geometry` is missing
(line 347), or calling `coords.forEach` when `coordinates` is missing
(lines 395 / 397).  A geometry whose `type` is neither `'Polygon'` nor
`'MultiPolygon'` contributes nothing and raises nothing. -/
noncomputable def processFeature (f : Feature) : Except Unit SegmentBuffer :=
  match f.geometry with
  | none => .error ()
  | some g =>
    let c := colorOf (some (resolveContinent f.properties))
    match g with
    | .polygon rings => .ok (appendAll (rings.map (addLines c)))
    | .multiPolygon polys =>
        .ok (appendAll ((polys.flatMap (fun rings => rings)).map (addLines c)))
    | .polygonNoCoords => .error ()
    | .multiPolygonNoCoords => .error ()
    | .otherType => .ok SegmentBuffer.empty

/-- The whole `forEach` over `data.features`: an exception thrown by
any feature aborts the remaining iterations and propagates to the
promise-level `.catch` (source line 407), so no buffer at all is
produced; otherwise the per-feature buffers are concatenated in
feature order. -/
noncomputable def buildFeatures : List Feature → Except Unit SegmentBuffer
  | [] => .ok SegmentBuffer.empty
  | f :: rest =>
    match processFeature f with
    | .error e => .error e
    | .ok b =>
      match buildFeatures rest with
      | .error e => .error e
      | .ok b2 => .ok (b.append b2)

/-- Modelled from the spec (claim C2's wording only, for comparison
with the source test `crossesCode`): "an edge crosses if exactly one
endpoint's latitude is strictly less than `lat` and the other is
`>= lat`". -/
def specCrossing (lat lat1 lat2 : ℚ) : Prop :=
  (lat1 < lat ∧ lat2 ≥ lat) ∨ (lat2 < lat ∧ lat1 ≥ lat)

/-- The concrete open ring of claim C3:
`[(0,0), (10,0), (10,10), (0,10)]` in `[lng, lat]` order. -/
def openSquareRing : List LngLat := [(0, 0), (10, 0), (10, 10), (0, 10)]

/-- The closed square ring (first vertex repeated at the end) used to
witness C4. -/
def closedSquare : List LngLat := [(0, 0), (10, 0), (10, 10), (0, 10), (0, 0)]

/-- Both counting facts behind the buffer invariant: the flat color
array holds three components per point, and points come in pairs. -/
def segmentCountsOk (b : SegmentBuffer) : Prop :=
  b.colors.length = 3 * b.points.length ∧ b.points.length % 2 = 0

/-- C6's invariant, phrased on the builder's result: when the build
succeeds, the number of 3-D points equals the number of RGB component
triples in the flat color array, and both counts are even. -/
def buildOutputOk : Except Unit SegmentBuffer → Prop
  | .ok b => b.points.length = b.colors.length / 3 ∧
      Even b.points.length ∧ Even (b.colors.length / 3)
  | .error _ => True

/-- The malformed feature of claim C1: its `geometry` field is
missing. -/
def malformedFeatureEx : Feature := ⟨none, ⟨none, none⟩⟩

/-- A well-formed feature of claim C1: a `Polygon` with one 2-vertex
ring and no continent label. -/
def wellFormedFeatureEx : Feature := ⟨some (.polygon [[(0, 0), (1, 0)]]), ⟨none, none⟩⟩

end Neoncore

namespace Neoncore

/-- Helper: evaluation of the scanline latitudes for the `[0,10]`
latitude span with step 5. -/
lemma scanlineLats_zero_ten_five : scanlineLats 0 10 5 = [0, 5, 10] := by
  rw [scanlineLats]
  norm_num
  rw [show ((2:ℤ).toNat + 1) = 3 from rfl, show List.range 3 = [0, 1, 2] from rfl]
  norm_num

/-- Helper: evaluation of the crossings of the open square ring at
latitude 5 — only the right-hand edge `(10,0)→(10,10)` is traversed
and crosses; the closing left edge does not exist in the open ring. -/
lemma crossings_openSquareRing_five : crossings openSquareRing 5 = [10] := by
  norm_num [openSquareRing, crossings, edges, crossesCode, interpolate, List.filterMap_cons]

/-- C9: whenever the grid-pass crossing test of `addLines` succeeds,
the two endpoint latitudes differ, so the interpolation divisor
`lat2 - lat1` at source line 377 is nonzero and the division is
well-defined. -/
theorem crossesCode_divisor_ne_zero (lat lat1 lat2 : ℚ)
    (h : crossesCode lat lat1 lat2) : lat2 - lat1 ≠ 0 := by
  rcases h with ⟨h1, h2⟩ | ⟨h1, h2⟩ <;> intro hEq <;> nlinarith [h1, h2]

/-- Witness for C9 at the concrete edge latitudes `0`, `10` and
scanline `5`. -/
theorem crossesCode_divisor_ne_zero_witness :
    crossesCode 5 0 10 ∧ (10 : ℚ) - 0 ≠ 0 :=
  ⟨Or.inl ⟨by norm_num, by norm_num⟩,
   crossesCode_divisor_ne_zero 5 0 10 (Or.inl ⟨by norm_num, by norm_num⟩)⟩

/-- Counterexample for C2 as stated: for the single traversed edge
from `(lng,lat) = (0,5)` to `(1,6)` and scanline latitude `5`, the
source test counts a crossing (the `intersections` array is `[0]`),
yet neither endpoint latitude is strictly below `5`, so the claim's
"exactly one endpoint strictly less, other `>= lat`" condition is
false. -/
theorem crossing_test_claim_false :
    crossings [((0:ℚ), (5:ℚ)), (1, 6)] 5 = [0] ∧ ¬ specCrossing 5 5 6 := by
  constructor
  · norm_num [crossings, edges, crossesCode, interpolate, List.filterMap_cons]
  · norm_num [specCrossing]

/-- C2 (amended): in the grid pass, an edge contributes a crossing at
scanline latitude `lat` if and only if exactly one of its endpoint
latitudes is less than or equal to `lat` (the other then being
strictly greater). -/
theorem crossing_test_characterization (polygon : List LngLat) (lat : ℚ) :
    crossings polygon lat =
      (edges polygon).filterMap
        (fun e => if Xor' (e.1.2 ≤ lat) (e.2.2 ≤ lat)
                  then some (interpolate lat e) else none) := by
  unfold crossings
  refine List.filterMap_congr (fun e _ => ?_)
  have hiff : crossesCode lat e.1.2 e.2.2 ↔ Xor' (e.1.2 ≤ lat) (e.2.2 ≤ lat) := by
    unfold crossesCode Xor'
    constructor
    · rintro (⟨h1, h2⟩ | ⟨h1, h2⟩)
      · exact Or.inl ⟨h1, not_le.mpr h2⟩
      · exact Or.inr ⟨h1, not_le.mpr h2⟩
    · rintro (⟨h1, h2⟩ | ⟨h1, h2⟩)
      · exact Or.inl ⟨h1, not_le.mp h2⟩
      · exact Or.inr ⟨h1, not_le.mp h2⟩
  simp only [hiff]

/-- Counterexample for C3 as stated: on the open ring
`[(0,0), (10,0), (10,10), (0,10)]` with grid step 5 the outline and
scanline-latitudes parts hold, but at latitude 5 only one edge crosses
(not two), so no chord `(0, 10)` is produced. -/
theorem scenario_ring_claim_false :
    ¬ ((edges openSquareRing).length = 3 ∧
       scanlineLats 0 10 5 = [0, 5, 10] ∧
       (crossings openSquareRing 5).length = 2 ∧
       pairUp (sortAsc (crossings openSquareRing 5)) = [(0, 10)]) := by
  rintro ⟨-, -, hlen, -⟩
  rw [crossings_openSquareRing_five] at hlen
  simp at hlen

/-- C3 (amended): on the open ring `[(0,0), (10,0), (10,10), (0,10)]`
with grid step 5 the tessellator emits exactly 3 outline segments and
evaluates scanlines at latitudes 0, 5 and 10, but at latitude 5
exactly one edge crosses (at longitude 10, from the right-hand side;
the closing edge back to the first vertex is never traversed), the
odd trailing crossing is dropped by the pairing, and no interior
chord at all is emitted. -/
theorem scenario_ring_actual :
    (edges openSquareRing).length = 3 ∧
    bounds openSquareRing = ⟨0, 10, 0, 10⟩ ∧
    scanlineLats 0 10 5 = [0, 5, 10] ∧
    crossings openSquareRing 5 = [10] ∧
    pairUp (sortAsc (crossings openSquareRing 5)) = [] ∧
    gridSegments openSquareRing 5 = [] := by
  refine ⟨by norm_num [openSquareRing, edges], by norm_num [openSquareRing, bounds],
    scanlineLats_zero_ten_five, crossings_openSquareRing_five, ?_, ?_⟩
  · rw [crossings_openSquareRing_five]
    norm_num [sortAsc, insertAsc, pairUp]
  · have hb : bounds openSquareRing = ⟨0, 10, 0, 10⟩ := by norm_num [openSquareRing, bounds]
    rw [gridSegments, hb]
    simp only
    rw [scanlineLats_zero_ten_five]
    norm_num [openSquareRing, crossings, edges, crossesCode, interpolate,
      List.filterMap_cons, sortAsc, insertAsc, pairUp]

/-- C8: the outline pass emits exactly `polygon.length - 1` segments
(truncated subtraction, i.e. `max (length - 1) 0`); a ring with fewer
than 2 vertices yields no outline; and segment `k` joins vertices `k`
and `k + 1`, so no wrap-around segment from the last vertex back to
the first is emitted. -/
theorem outline_count (polygon : List LngLat) :
    (edges polygon).length = polygon.length - 1 ∧
    (polygon.length < 2 → edges polygon = []) ∧
    (∀ k, ∀ hk : k < (edges polygon).length, ∀ h1 : k < polygon.length,
      ∀ h2 : k + 1 < polygon.length,
      (edges polygon)[k] = (polygon[k], polygon[k + 1])) := by
  refine ⟨?_, ?_, ?_⟩
  · unfold edges
    rw [List.length_zip, List.length_tail]
    omega
  · intro h
    match polygon, h with
    | [], _ => rfl
    | [a], _ => rfl
  · intro k hk h1 h2
    simp only [edges] at hk ⊢
    rw [List.getElem_zip, List.getElem_tail]

/-- Witness for C8 on the concrete 3-vertex ring
`[(0,0), (1,0), (2,1)]`: two outline segments, the first joining
vertices 0 and 1. -/
theorem outline_count_witness :
    (edges [((0:ℚ), (0:ℚ)), (1, 0), (2, 1)]).length = 2 ∧
    (edges [((0:ℚ), (0:ℚ)), (1, 0), (2, 1)])[0] =
      (((0:ℚ), (0:ℚ)), ((1:ℚ), (0:ℚ))) := by
  obtain ⟨h1, -, h3⟩ := outline_count [((0:ℚ), (0:ℚ)), (1, 0), (2, 1)]
  exact ⟨h1, h3 0 (by rw [h1]; norm_num) (by norm_num) (by norm_num)⟩

/-- C5: on the whole valid input range the Projector computes exactly
`x = -radius*sin(phi)*cos(theta)`, `y = radius*cos(phi)`,
`z = radius*sin(phi)*sin(theta)` with `phi = (90 - lat)*pi/180` and
`theta = (lng + 180)*pi/180`, and the resulting point lies at
Euclidean distance `radius` from the origin. -/
theorem projector_formula (lat lng radius : ℝ)
    (hlat1 : -90 ≤ lat) (hlat2 : lat ≤ 90)
    (hlng1 : -180 ≤ lng) (hlng2 : lng ≤ 180) (hr : 0 < radius) :
    (latLngToVector3 lat lng radius).x =
      -radius * Real.sin ((90 - lat) * (Real.pi / 180)) *
        Real.cos ((lng + 180) * (Real.pi / 180)) ∧
    (latLngToVector3 lat lng radius).y =
      radius * Real.cos ((90 - lat) * (Real.pi / 180)) ∧
    (latLngToVector3 lat lng radius).z =
      radius * Real.sin ((90 - lat) * (Real.pi / 180)) *
        Real.sin ((lng + 180) * (Real.pi / 180)) ∧
    Real.sqrt ((latLngToVector3 lat lng radius).x ^ 2 +
      (latLngToVector3 lat lng radius).y ^ 2 +
      (latLngToVector3 lat lng radius).z ^ 2) = radius := by
  refine ⟨rfl, rfl, rfl, ?_⟩
  have h1 := Real.sin_sq_add_cos_sq ((90 - lat) * (Real.pi / 180))
  have h2 := Real.sin_sq_add_cos_sq ((lng + 180) * (Real.pi / 180))
  have hsum : (latLngToVector3 lat lng radius).x ^ 2 +
      (latLngToVector3 lat lng radius).y ^ 2 +
      (latLngToVector3 lat lng radius).z ^ 2 = radius ^ 2 := by
    simp only [latLngToVector3]
    linear_combination
      (radius ^ 2 * Real.sin ((90 - lat) * (Real.pi / 180)) ^ 2) * h2 + radius ^ 2 * h1
  rw [hsum, Real.sqrt_sq hr.le]

/-- Witness for C5 at `lat = 0`, `lng = -180`, `radius = 1`. -/
theorem projector_formula_witness :
    (latLngToVector3 0 (-180) 1).x =
      -1 * Real.sin ((90 - 0) * (Real.pi / 180)) *
        Real.cos ((-180 + 180) * (Real.pi / 180)) ∧
    (latLngToVector3 0 (-180) 1).y =
      1 * Real.cos ((90 - 0) * (Real.pi / 180)) ∧
    (latLngToVector3 0 (-180) 1).z =
      1 * Real.sin ((90 - 0) * (Real.pi / 180)) *
        Real.sin ((-180 + 180) * (Real.pi / 180)) ∧
    Real.sqrt ((latLngToVector3 0 (-180) 1).x ^ 2 +
      (latLngToVector3 0 (-180) 1).y ^ 2 +
      (latLngToVector3 0 (-180) 1).z ^ 2) = 1 :=
  projector_formula 0 (-180) 1 (by norm_num) (by norm_num) (by norm_num)
    (by norm_num) (by norm_num)

/-- C10: consecutive outline segments share an endpoint — the second
point of outline segment `k` and the first point of outline segment
`k + 1` are both the projection of ring vertex `k + 1` at the outline
radius, so the outline forms a connected open polyline in ring
order. -/
theorem outline_connected (polygon : List LngLat) (k : ℕ)
    (hk : k < (outlineSegments3 polygon).length)
    (hk1 : k + 1 < (outlineSegments3 polygon).length)
    (hv : k + 1 < polygon.length) :
    ((outlineSegments3 polygon)[k]).2 = ((outlineSegments3 polygon)[k + 1]).1 ∧
    ((outlineSegments3 polygon)[k]).2 =
      projectVertex polygon[k + 1] (GLOBE_RADIUS + 2/100) := by
  constructor <;>
    simp only [outlineSegments3, List.getElem_map, edges, List.getElem_zip,
      List.getElem_tail]

/-- Witness for C10 on the concrete ring `[(0,0), (1,0), (2,1)]` at
`k = 0`. -/
theorem outline_connected_witness :
    ((outlineSegments3 [((0:ℚ), (0:ℚ)), (1, 0), (2, 1)]).get
        ⟨0, by norm_num [outlineSegments3, edges]⟩).2 =
      ((outlineSegments3 [((0:ℚ), (0:ℚ)), (1, 0), (2, 1)]).get
        ⟨1, by norm_num [outlineSegments3, edges]⟩).1 ∧
    ((outlineSegments3 [((0:ℚ), (0:ℚ)), (1, 0), (2, 1)]).get
        ⟨0, by norm_num [outlineSegments3, edges]⟩).2 =
      projectVertex ((1:ℚ), (0:ℚ)) (GLOBE_RADIUS + 2/100) :=
  outline_connected [((0:ℚ), (0:ℚ)), (1, 0), (2, 1)] 0
    (by norm_num [outlineSegments3, edges])
    (by norm_num [outlineSegments3, edges])
    (by norm_num)

/-- Counterexample for C7 as stated: `"toString"` is none of the
seven continent names, yet the bracket lookup
`CONTINENT_COLORS["toString"]` finds the truthy inherited
`Object.prototype.toString`, so `|| DEFAULT_COLOR` never fires and the
palette does not return the gray fallback for it. -/
theorem palette_fallback_claim_false :
    "toString" ∉ ["Africa", "Asia", "Europe", "North America",
                  "South America", "Oceania", "Antarctica"] ∧
    colorOf (some "toString") = PaletteValue.inherited ∧
    colorOf (some "toString") ≠ PaletteValue.color DEFAULT_COLOR := by
  refine ⟨by decide, by decide, by decide⟩

/-- C7 (amended): each of the seven fixed continent names resolves to
its assigned palette color; a missing (`undefined`) name, the empty
string, and every other name that is not an `Object.prototype`
property name resolve to the single neutral gray fallback `#444444`;
but a name of an `Object.prototype` member resolves to the truthy
inherited value, which is not a color and in particular not the
fallback. -/
theorem palette_lookup_actual (name proto : String)
    (h : name ∉ ["Africa", "Asia", "Europe", "North America",
                 "South America", "Oceania", "Antarctica"])
    (hnp : name ∉ OBJECT_PROTOTYPE_KEYS)
    (hproto : proto ∈ OBJECT_PROTOTYPE_KEYS) :
    colorOf (some name) = PaletteValue.color DEFAULT_COLOR ∧
    colorOf (some proto) = PaletteValue.inherited ∧
    colorOf (some proto) ≠ PaletteValue.color DEFAULT_COLOR ∧
    colorOf none = PaletteValue.color DEFAULT_COLOR ∧
    colorOf (some "") = PaletteValue.color DEFAULT_COLOR ∧
    colorOf (some "Africa") = PaletteValue.color ⟨1, 136/255, 0⟩ ∧
    colorOf (some "Asia") = PaletteValue.color ⟨0, 242/255, 1⟩ ∧
    colorOf (some "Europe") = PaletteValue.color ⟨0, 1, 0⟩ ∧
    colorOf (some "North America") = PaletteValue.color ⟨1, 0, 1⟩ ∧
    colorOf (some "South America") = PaletteValue.color ⟨1, 1, 0⟩ ∧
    colorOf (some "Oceania") = PaletteValue.color ⟨1, 0, 136/255⟩ ∧
    colorOf (some "Antarctica") = PaletteValue.color ⟨1, 1, 1⟩ := by
  simp only [List.mem_cons, List.not_mem_nil, or_false, not_or] at h
  obtain ⟨h1, h2, h3, h4, h5, h6, h7⟩ := h
  have e1 : (name == "Africa") = false := beq_eq_false_iff_ne.mpr h1
  have e2 : (name == "Asia") = false := beq_eq_false_iff_ne.mpr h2
  have e3 : (name == "Europe") = false := beq_eq_false_iff_ne.mpr h3
  have e4 : (name == "North America") = false := beq_eq_false_iff_ne.mpr h4
  have e5 : (name == "South America") = false := beq_eq_false_iff_ne.mpr h5
  have e6 : (name == "Oceania") = false := beq_eq_false_iff_ne.mpr h6
  have e7 : (name == "Antarctica") = false := beq_eq_false_iff_ne.mpr h7
  have hmiss : colorOf (some name) = PaletteValue.color DEFAULT_COLOR := by
    simp [colorOf, bracketLookup, CONTINENT_COLORS, List.lookup,
      e1, e2, e3, e4, e5, e6, e7, hnp]
  have hproto2 : colorOf (some proto) = PaletteValue.inherited := by
    fin_cases hproto <;> decide
  refine ⟨hmiss, hproto2, ?_, rfl, rfl, rfl, rfl, rfl, rfl, rfl, rfl, rfl⟩
  rw [hproto2]
  simp

/-- Witness for C7 (amended) at the unmapped name `"Atlantis"` and
the prototype member `"toString"`. -/
theorem palette_lookup_actual_witness :
    colorOf (some "Atlantis") = PaletteValue.color DEFAULT_COLOR ∧
    colorOf (some "toString") = PaletteValue.inherited ∧
    colorOf none = PaletteValue.color DEFAULT_COLOR ∧
    colorOf (some "Africa") = PaletteValue.color ⟨1, 136/255, 0⟩ := by
  obtain ⟨w1, w2, -, w4, -, w6, -⟩ :=
    palette_lookup_actual "Atlantis" "toString" (by decide) (by decide) (by decide)
  exact ⟨w1, w2, w4, w6⟩

/-- Helper: the length of a `flatMap` whose blocks all have the same
length. -/
lemma length_flatMap_const {α β : Type _} (l : List α) (f : α → List β) (n : ℕ)
    (h : ∀ a, (f a).length = n) : (l.flatMap f).length = n * l.length := by
  induction l with
  | nil => simp
  | cons a t ih =>
    simp only [List.flatMap_cons, List.length_append, h, ih, List.length_cons]
    ring

/-- Helper: one `addLines` call satisfies the counting invariant. -/
lemma addLines_counts (cv : PaletteValue) (poly : List LngLat) :
    segmentCountsOk (addLines cv poly) := by
  have hp1 := length_flatMap_const (outlineSegments3 poly)
    (fun pq => [pq.1, pq.2]) 2 (fun a => rfl)
  have hp2 := length_flatMap_const
    ((gridSegments poly gridStepConst).map projectGridSegment)
    (fun pq => [pq.1, pq.2]) 2 (fun a => rfl)
  have hc1 := length_flatMap_const (edges poly)
    (fun _ => [cv.rComp, cv.gComp, cv.bComp, cv.rComp, cv.gComp, cv.bComp]) 6
    (fun a => rfl)
  have hc2 := length_flatMap_const (gridSegments poly gridStepConst)
    (fun _ => [jsMul cv.rComp (3/10), jsMul cv.gComp (3/10), jsMul cv.bComp (3/10),
               jsMul cv.rComp (3/10), jsMul cv.gComp (3/10), jsMul cv.bComp (3/10)]) 6
    (fun a => rfl)
  have e1 : (outlineSegments3 poly).length = (edges poly).length :=
    List.length_map _ _
  have e2 : ((gridSegments poly gridStepConst).map projectGridSegment).length =
      (gridSegments poly gridStepConst).length := List.length_map _ _
  constructor <;>
    simp only [addLines, List.length_append, hp1, hp2, hc1, hc2, e1, e2] <;>
    omega

/-- Helper: `SegmentBuffer.append` preserves the counting invariant. -/
lemma append_counts {a b : SegmentBuffer}
    (ha : segmentCountsOk a) (hb : segmentCountsOk b) :
    segmentCountsOk (a.append b) := by
  obtain ⟨ha1, ha2⟩ := ha
  obtain ⟨hb1, hb2⟩ := hb
  constructor <;> simp only [SegmentBuffer.append, List.length_append] <;> omega

/-- Helper: `appendAll` preserves the counting invariant. -/
lemma appendAll_counts (bs : List SegmentBuffer)
    (h : ∀ b ∈ bs, segmentCountsOk b) : segmentCountsOk (appendAll bs) := by
  induction bs with
  | nil => exact ⟨rfl, rfl⟩
  | cons b t ih =>
    exact append_counts (h b (List.mem_cons_self b t))
      (ih (fun x hx => h x (List.mem_cons_of_mem b hx)))

/-- Helper: every buffer a feature successfully contributes satisfies
the counting invariant. -/
lemma processFeature_counts (f : Feature) (b : SegmentBuffer)
    (h : processFeature f = .ok b) : segmentCountsOk b := by
  unfold processFeature at h
  cases hg : f.geometry with
  | none => rw [hg] at h; exact absurd h (by simp)
  | some g =>
    rw [hg] at h
    cases g with
    | polygon rings =>
      simp only [Except.ok.injEq] at h
      rw [← h]
      refine appendAll_counts _ (fun x hx => ?_)
      obtain ⟨r, -, rfl⟩ := List.mem_map.mp hx
      exact addLines_counts _ r
    | multiPolygon polys =>
      simp only [Except.ok.injEq] at h
      rw [← h]
      refine appendAll_counts _ (fun x hx => ?_)
      obtain ⟨r, -, rfl⟩ := List.mem_map.mp hx
      exact addLines_counts _ r
    | polygonNoCoords => exact absurd h (by simp)
    | multiPolygonNoCoords => exact absurd h (by simp)
    | otherType =>
      simp only [Except.ok.injEq] at h
      rw [← h]
      exact ⟨rfl, rfl⟩

/-- Helper: every buffer the builder successfully returns satisfies
the counting invariant. -/
lemma buildFeatures_counts (fs : List Feature) (b : SegmentBuffer)
    (h : buildFeatures fs = .ok b) : segmentCountsOk b := by
  induction fs generalizing b with
  | nil =>
    unfold buildFeatures at h
    simp only [Except.ok.injEq] at h
    rw [← h]
    exact ⟨rfl, rfl⟩
  | cons f rest ih =>
    unfold buildFeatures at h
    cases hpf : processFeature f with
    | error e => rw [hpf] at h; exact absurd h (by simp)
    | ok b1 =>
      rw [hpf] at h
      cases hbr : buildFeatures rest with
      | error e => rw [hbr] at h; exact absurd h (by simp)
      | ok b2 =>
        rw [hbr] at h
        simp only [Except.ok.injEq] at h
        rw [← h]
        exact append_counts (processFeature_counts f b1 hpf) (ih b2 hbr)

/-- C6: for every input feature collection, the Boundary Mesh
Builder's output SegmentBuffer (when one is produced) has as many 3-D
points as RGB color triples, and both counts are even — each emitted
segment contributes exactly two points and two color triples. -/
theorem buffer_invariant (features : List Feature) :
    buildOutputOk (buildFeatures features) := by
  cases hb : buildFeatures features with
  | error e => trivial
  | ok b =>
    obtain ⟨hc, he⟩ := buildFeatures_counts features b hb
    exact ⟨by omega, Nat.even_iff.mpr (by omega), Nat.even_iff.mpr (by omega)⟩

/-- Counterexample for C1 as stated: with a malformed feature (missing
`geometry`) in front of a well-formed one, the build raises and yields
no buffer at all (`TypeError` reaching the promise-level `.catch`),
whereas the well-formed feature alone builds fine — so the malformed
feature is not skipped and no partial SegmentBuffer is produced. -/
theorem build_skip_claim_false :
    buildFeatures [malformedFeatureEx, wellFormedFeatureEx] = .error () ∧
    (buildFeatures [wellFormedFeatureEx]).isOk = true ∧
    buildFeatures [malformedFeatureEx, wellFormedFeatureEx] ≠
      buildFeatures [wellFormedFeatureEx] := by
  refine ⟨rfl, rfl, ?_⟩
  intro h
  have h2 : (buildFeatures [wellFormedFeatureEx]).isOk = true := rfl
  rw [← h] at h2
  rw [show buildFeatures [malformedFeatureEx, wellFormedFeatureEx] = .error ()
    from rfl] at h2
  exact absurd h2 (by simp [Except.isOk, Except.toBool])

/-- Helper: a feature with missing `geometry` or missing `coordinates`
makes the `forEach` body throw. -/
lemma processFeature_malformed (f : Feature)
    (h : f.geometry = none ∨ f.geometry = some .polygonNoCoords ∨
         f.geometry = some .multiPolygonNoCoords) :
    processFeature f = .error () := by
  rcases h with h | h | h <;> simp [processFeature, h]

/-- C1 (amended): if any feature of the collection is malformed
(missing `geometry`, or typed `Polygon`/`MultiPolygon` with missing
`coordinates`), the whole build aborts with an error — caught only at
the batch level, so no combined SegmentBuffer is produced for the
well-formed features. -/
theorem build_aborts_on_malformed (features : List Feature) (f : Feature)
    (hmem : f ∈ features)
    (hbad : f.geometry = none ∨ f.geometry = some .polygonNoCoords ∨
            f.geometry = some .multiPolygonNoCoords) :
    buildFeatures features = .error () := by
  induction features with
  | nil => cases hmem
  | cons g rest ih =>
    rcases List.mem_cons.mp hmem with rfl | hmem2
    · unfold buildFeatures
      rw [processFeature_malformed f hbad]
    · unfold buildFeatures
      cases hg : processFeature g with
      | error e => rfl
      | ok b => rw [ih hmem2]

/-- Witness for C1 (amended) on the concrete two-feature collection. -/
theorem build_aborts_on_malformed_witness :
    malformedFeatureEx ∈ [malformedFeatureEx, wellFormedFeatureEx] ∧
    buildFeatures [malformedFeatureEx, wellFormedFeatureEx] = .error () :=
  ⟨List.mem_cons_self _ _,
   build_aborts_on_malformed [malformedFeatureEx, wellFormedFeatureEx]
     malformedFeatureEx (List.mem_cons_self _ _) (Or.inl rfl)⟩

/-- Helper: the scanline latitudes visited by the grid-pass loop are
exactly the integer multiples of the step lying in
`[minLat, maxLat]` — the loop starts at the smallest multiple that is
`>= minLat` and steps by the step up to `maxLat` inclusive. -/
lemma mem_scanlineLats_iff (m M s : ℚ) (hs : 0 < s) (lat : ℚ) :
    lat ∈ scanlineLats m M s ↔ ∃ k : ℤ, lat = k * s ∧ m ≤ lat ∧ lat ≤ M := by
  have hstart : m ≤ (⌈m / s⌉ : ℚ) * s := by
    rw [← div_le_iff₀ hs]
    exact Int.le_ceil _
  unfold scanlineLats
  rw [if_pos hs]
  by_cases hle : ((⌈m / s⌉ : ℤ) : ℚ) * s ≤ M
  · rw [if_pos hle]
    constructor
    · intro hmem
      obtain ⟨j, hj, hlat⟩ := List.mem_map.mp hmem
      rw [List.mem_range] at hj
      have hF : (0:ℤ) ≤ ⌊(M - (⌈m / s⌉ : ℚ) * s) / s⌋ :=
        Int.floor_nonneg.mpr (div_nonneg (by linarith) hs.le)
      refine ⟨⌈m / s⌉ + j, ?_, ?_, ?_⟩
      · rw [← hlat]; push_cast; ring
      · rw [← hlat]
        have hjs : (0:ℚ) ≤ (j:ℚ) * s := mul_nonneg (by positivity) hs.le
        linarith
      · rw [← hlat]
        have hj1 : j ≤ (⌊(M - (⌈m / s⌉ : ℚ) * s) / s⌋).toNat := Nat.lt_succ_iff.mp hj
        have hj2 : (j : ℤ) ≤ ⌊(M - (⌈m / s⌉ : ℚ) * s) / s⌋ := by
          calc (j : ℤ) ≤ ((⌊(M - (⌈m / s⌉ : ℚ) * s) / s⌋).toNat : ℤ) := by
                exact_mod_cast hj1
            _ = ⌊(M - (⌈m / s⌉ : ℚ) * s) / s⌋ := Int.toNat_of_nonneg hF
        have hj3 : (j : ℚ) ≤ (M - (⌈m / s⌉ : ℚ) * s) / s := by
          calc (j : ℚ) ≤ ((⌊(M - (⌈m / s⌉ : ℚ) * s) / s⌋ : ℤ) : ℚ) := by
                exact_mod_cast hj2
            _ ≤ _ := Int.floor_le _
        have hj4 := (le_div_iff₀ hs).mp hj3
        linarith
    · rintro ⟨k, rfl, hm, hM⟩
      have hck : ⌈m / s⌉ ≤ k := Int.ceil_le.mpr ((div_le_iff₀ hs).mpr hm)
      have hkF : k - ⌈m / s⌉ ≤ ⌊(M - (⌈m / s⌉ : ℚ) * s) / s⌋ := by
        refine Int.le_floor.mpr ?_
        rw [le_div_iff₀ hs]
        push_cast
        linarith
      have hge : (0:ℤ) ≤ k - ⌈m / s⌉ := by omega
      have hF : (0:ℤ) ≤ ⌊(M - (⌈m / s⌉ : ℚ) * s) / s⌋ := le_trans hge hkF
      refine List.mem_map.mpr ⟨(k - ⌈m / s⌉).toNat, List.mem_range.mpr ?_, ?_⟩
      · have h1 := Int.toNat_le_toNat hkF
        omega
      · have hcast : (((k - ⌈m / s⌉).toNat : ℕ) : ℚ) = (k : ℚ) - (⌈m / s⌉ : ℚ) := by
          have h2 : (((k - ⌈m / s⌉).toNat : ℕ) : ℤ) = k - ⌈m / s⌉ :=
            Int.toNat_of_nonneg hge
          exact_mod_cast congrArg (fun z : ℤ => (z : ℚ)) h2
        rw [hcast]
        ring
  · rw [if_neg hle]
    simp only [List.not_mem_nil, false_iff]
    rintro ⟨k, rfl, hm, hM⟩
    have hck : ⌈m / s⌉ ≤ k := Int.ceil_le.mpr ((div_le_iff₀ hs).mpr hm)
    have hks : ((⌈m / s⌉ : ℤ) : ℚ) * s ≤ (k : ℚ) * s := by
      refine mul_le_mul_of_nonneg_right ?_ hs.le
      exact_mod_cast hck
    exact hle (le_trans hks hM)

/-- C4: for every ring and positive grid step, every grid segment's
two endpoints are projected at the same scanline latitude, and that
latitude is an integer multiple of the step lying within the ring's
`[minLat, maxLat]`; moreover the scanline latitudes visited are
exactly the multiples of the step from the smallest one `>= minLat`
up to `maxLat` inclusive. -/
theorem grid_segment_latitudes (polygon : List LngLat) (step lat : ℚ)
    (s : ℚ × ℚ × ℚ) (hstep : 0 < step) (hs : s ∈ gridSegments polygon step) :
    (∃ k : ℤ, s.1 = k * step) ∧
    (bounds polygon).minY ≤ s.1 ∧ s.1 ≤ (bounds polygon).maxY ∧
    (lat ∈ scanlineLats (bounds polygon).minY (bounds polygon).maxY step ↔
      ∃ k : ℤ, lat = k * step ∧
        (bounds polygon).minY ≤ lat ∧ lat ≤ (bounds polygon).maxY) ∧
    (projectGridSegment s).1.y = (projectGridSegment s).2.y := by
  obtain ⟨l, hl, hsl⟩ := List.mem_flatMap.mp hs
  obtain ⟨ab, -, rfl⟩ := List.mem_map.mp hsl
  obtain ⟨k, hk, hm, hM⟩ :=
    (mem_scanlineLats_iff (bounds polygon).minY (bounds polygon).maxY step hstep l).mp hl
  exact ⟨⟨k, hk⟩, hm, hM,
    mem_scanlineLats_iff (bounds polygon).minY (bounds polygon).maxY step hstep lat,
    rfl⟩

/-- Helper: evaluation of the grid pass on the closed square with
step 5 — chords from longitude 0 to 10 at latitudes 0 and 5. -/
lemma gridSegments_closedSquare :
    gridSegments closedSquare 5 = [(0, 0, 10), (5, 0, 10)] := by
  have hb : bounds closedSquare = ⟨0, 10, 0, 10⟩ := by norm_num [closedSquare, bounds]
  rw [gridSegments, hb]
  simp only
  rw [scanlineLats_zero_ten_five]
  norm_num [closedSquare, crossings, edges, crossesCode, interpolate,
    List.filterMap_cons, sortAsc, insertAsc, pairUp]

/-- Witness for C4 on the closed square ring with step 5, the grid
segment at latitude 0 and the scanline latitude 5. -/
theorem grid_segment_latitudes_witness :
    (∃ k : ℤ, ((0:ℚ), (0:ℚ), (10:ℚ)).1 = k * 5) ∧
    (bounds closedSquare).minY ≤ ((0:ℚ), (0:ℚ), (10:ℚ)).1 ∧
    ((0:ℚ), (0:ℚ), (10:ℚ)).1 ≤ (bounds closedSquare).maxY ∧
    ((5:ℚ) ∈ scanlineLats (bounds closedSquare).minY (bounds closedSquare).maxY 5 ↔
      ∃ k : ℤ, (5:ℚ) = k * 5 ∧
        (bounds closedSquare).minY ≤ 5 ∧ (5:ℚ) ≤ (bounds closedSquare).maxY) ∧
    (projectGridSegment ((0:ℚ), (0:ℚ), (10:ℚ))).1.y =
      (projectGridSegment ((0:ℚ), (0:ℚ), (10:ℚ))).2.y :=
  grid_segment_latitudes closedSquare 5 5 ((0:ℚ), (0:ℚ), (10:ℚ)) (by norm_num)
    (by rw [gridSegments_closedSquare]; exact List.mem_cons_self _ _)

end Neoncore

